import Mathlib

/-
Verification of the whisper-cli Python packaging shim.

The repository has two source files:
  * src/python-wrapper/whisper_cli/cli.py  — the Launcher
      (get_whisper_cli_path, main)
  * src/python-wrapper/setup.py            — the Installer
      (WhisperInstall.download_whisper_binary)

The embedding below models paths as lists of path components, the
filesystem as a record of a directory set and an association list of
files (content bytes plus a permission mode), and each fallible
primitive (mkdir, shutil.copy2, os.chmod) as able to raise, driven by
an explicit fault environment.  Exceptions are explicit: a StepOut with
exn = some e is a Python exception propagating out of the modelled
routine; exn = none is a normal return.
-/

set_option autoImplicit false
set_option linter.unusedVariables false

/-- Content bytes and permission mode of one file. -/
structure FileData where
  content : List Nat
  mode : Nat
deriving DecidableEq

/-- A filesystem: the set of directories present and the files present,
as an association list from paths (component lists) to file data. -/
structure FS where
  dirs : List (List String)
  files : List (List String × FileData)
deriving DecidableEq

/-- Look a path up in a file association list (first match wins). -/
def lookupFile : List (List String × FileData) → List String → Option FileData
  | [], _ => none
  | e :: rest, p => if e.1 = p then some e.2 else lookupFile rest p

/-- Overwrite (or create) the file at a path, as Python file writes and
shutil.copy2 do. -/
def setFile : List (List String × FileData) → List String → FileData → List (List String × FileData)
  | [], p, d => [(p, d)]
  | e :: rest, p, d => if e.1 = p then (p, d) :: rest else e :: setFile rest p d

/-- os.chmod: replace the mode of the file at a path, if present. -/
def chmodFiles : List (List String × FileData) → List String → Nat → List (List String × FileData)
  | [], _, _ => []
  | e :: rest, p, m => if e.1 = p then (e.1, { e.2 with mode := m }) :: rest else e :: chmodFiles rest p m

/-- All nonempty ancestors of a path, the path itself included:
ancestorsOf [a, b] = [[a], [a, b]]. -/
def ancestorsOf : List String → List (List String)
  | [] => []
  | a :: rest => [a] :: (ancestorsOf rest).map (fun q => a :: q)

/-- Path.mkdir(parents=True, exist_ok=True): add the directory and every
missing ancestor; directories already present are untouched. -/
def FS.mkdirParents (fs : FS) (p : List String) : FS :=
  { fs with dirs := fs.dirs ++ (ancestorsOf p).filter (fun q => decide (q ∉ fs.dirs)) }

/-- os.path.exists restricted to files, as used on the launcher path. -/
def FS.fileExists (fs : FS) (p : List String) : Bool :=
  (lookupFile fs.files p).isSome

/-- Render a component path as the single string Python passes around.
The separator choice is immaterial to every property proved below. -/
def pathStr (p : List String) : String :=
  String.intercalate "/" p

/-
Launcher: whisper_cli/cli.py.
-/

/-- cli.py get_whisper_cli_path: base_dir is the directory of cli.py
(the whisper_cli package directory); the executable name is "whisper",
with ".exe" appended when sys.platform starts with "win".  Note the
computed path is base_dir plus the bare executable name: no "bin"
component is inserted. -/
def get_whisper_cli_path (base_dir : List String) (isWindows : Bool) : List String :=
  let cli_executable := if isWindows then "whisper" ++ ".exe" else "whisper"
  base_dir ++ [cli_executable]

/-- Observable outcome of one launcher invocation: lines printed, the
argument vector of the spawned child (none when no child was spawned),
and the launcher process exit status. -/
structure LaunchOut where
  printed : List String
  spawned : Option (List String)
  exitCode : Nat
deriving DecidableEq

/-- cli.py main.  argv is the full sys.argv (program name first);
childExit is the exit status the spawned child would return.  If the
resolved path is missing, print one diagnostic and sys.exit(1).
Otherwise subprocess.run([cli_path] + sys.argv[1:], check=True) spawns
the child; with check=True a nonzero child status raises
CalledProcessError, which is uncaught, so the interpreter terminates
with exit status 1; a zero child status returns and main exits 0. -/
def cli_main (fs : FS) (base_dir : List String) (isWindows : Bool)
    (argv : List String) (childExit : Nat) : LaunchOut :=
  let cli_path := get_whisper_cli_path base_dir isWindows
  if fs.fileExists cli_path then
    { printed := [],
      spawned := some (pathStr cli_path :: argv.drop 1),
      exitCode := if childExit = 0 then 0 else 1 }
  else
    { printed := ["Whisper CLI executable not found! Please ensure it is installed correctly."],
      spawned := none,
      exitCode := 1 }

/-
Installer: setup.py WhisperInstall.download_whisper_binary.
-/

/-- Injected environment faults for the three fallible filesystem
primitives the installer uses. -/
structure Faults where
  mkdirFails : Bool
  copyFails : Bool
  chmodFails : Bool
deriving DecidableEq

/-- The nominal environment: no primitive fails. -/
def noFaults : Faults := { mkdirFails := false, copyFails := false, chmodFails := false }

/-- Outcome of the installer: final filesystem, lines printed, and the
exception propagating out of the routine, if any. -/
structure StepOut where
  fs : FS
  printed : List String
  exn : Option String
deriving DecidableEq

/-- The if/elif chain of download_whisper_binary on platform.system():
the (binary_name, executable_name) pair for a supported system
identifier, none otherwise. -/
def selectBinary (system : String) : Option (String × String) :=
  if system = "windows" then some ("whisper-win.exe", "whisper.exe")
  else if system = "darwin" then some ("whisper-macos", "whisper")
  else if system = "linux" then some ("whisper-linux", "whisper")
  else none

/-- The except-clause of download_whisper_binary: a body exception is
caught and converted into two printed diagnostic lines; p0 is what was
printed before the try block. -/
def catchTry (p0 : List String) (body : StepOut) : StepOut :=
  match body.exn with
  | some e =>
      { fs := body.fs,
        printed := p0 ++ body.printed ++
          ["❌ Failed to download Whisper binary: " ++ e,
           "Please install manually or use Node.js version"],
        exn := none }
  | none => { fs := body.fs, printed := p0 ++ body.printed, exn := none }

/-- setup.py WhisperInstall.download_whisper_binary.  system and machine
are platform.system().lower() and platform.machine().lower();
installLib is self.install_lib, repoRoot is Path(setup.py).parent.parent.
The unsupported branch prints a warning and returns.  Otherwise
install_dir = installLib/whisper_cli/bin is created (mkdir is OUTSIDE
the try block, so its failure propagates), then inside try: copy the
local artifact repoRoot/dist/binary_name to install_dir/executable_name
if it exists (else print an info message and return), then chmod 0o755
when the system is not windows; any exception in the try body is caught
and turned into printed diagnostics. -/
def download_whisper_binary (system machine : String) (installLib repoRoot : List String)
    (faults : Faults) (fs : FS) : StepOut :=
  match selectBinary system with
  | none =>
      { fs := fs,
        printed := ["⚠️  Unsupported platform: " ++ system,
                    "Please install Node.js and use: npm install -g whisper-ai"],
        exn := none }
  | some (binary_name, executable_name) =>
      let install_dir := installLib ++ ["whisper_cli", "bin"]
      if faults.mkdirFails then
        { fs := fs, printed := [], exn := some "mkdir failed" }
      else
        let fs1 := fs.mkdirParents install_dir
        let binary_path := install_dir ++ [executable_name]
        let p0 := ["📦 Downloading Whisper CLI binary for " ++ system ++ "..."]
        let local_binary := repoRoot ++ ["dist", binary_name]
        let body : StepOut :=
          match lookupFile fs1.files local_binary with
          | some src =>
              if faults.copyFails then
                { fs := fs1, printed := [], exn := some "copy failed" }
              else
                let fs2 : FS := { fs1 with files := setFile fs1.files binary_path src }
                let p1 := ["✅ Copied local binary to " ++ pathStr binary_path]
                if system ≠ "windows" then
                  if faults.chmodFails then
                    { fs := fs2, printed := p1, exn := some "chmod failed" }
                  else
                    let fs3 : FS := { fs2 with files := chmodFiles fs2.files binary_path 0o755 }
                    { fs := fs3,
                      printed := p1 ++ ["✅ Whisper CLI installed successfully!",
                                        "🚀 You can now use: python -m whisper_cli --help"],
                      exn := none }
                else
                  { fs := fs2,
                    printed := p1 ++ ["✅ Whisper CLI installed successfully!",
                                      "🚀 You can now use: python -m whisper_cli --help"],
                    exn := none }
          | none =>
              { fs := fs1,
                printed := ["ℹ️  Local binary not found. You will need to build it first with:",
                            "   npm run build:standalone"],
                exn := none }
        catchTry p0 body

/-
Helper lemmas about the filesystem model.
-/

/-- mkdir touches only the directory set, never the files. -/
@[simp]
theorem mkdirParents_files (fs : FS) (p : List String) :
    (fs.mkdirParents p).files = fs.files := rfl

/-- Looking up the path just written returns exactly the written data. -/
theorem lookupFile_setFile_self (l : List (List String × FileData)) (p : List String) (d : FileData) :
    lookupFile (setFile l p d) p = some d := by
  induction l with
  | nil => simp [setFile, lookupFile]
  | cons e rest ih =>
    by_cases hp : e.1 = p
    · simp [setFile, lookupFile, hp]
    · simp [setFile, lookupFile, hp, ih]

/-- chmod keeps the content of the file at the target path and replaces
its mode. -/
theorem lookupFile_chmodFiles_self (l : List (List String × FileData)) (p : List String)
    (m : Nat) (d : FileData) (h : lookupFile l p = some d) :
    lookupFile (chmodFiles l p m) p = some { d with mode := m } := by
  induction l with
  | nil => simp [lookupFile] at h
  | cons e rest ih =>
    by_cases hp : e.1 = p
    · simp [lookupFile, hp] at h
      simp [chmodFiles, lookupFile, hp, h]
    · simp [lookupFile, hp] at h
      simp [chmodFiles, lookupFile, hp, ih h]

/-- Whatever happened inside the try block, the except clause swallows
the exception: nothing propagates past catchTry. -/
theorem catchTry_exn (p0 : List String) (body : StepOut) : (catchTry p0 body).exn = none := by
  cases h : body.exn <;> simp [catchTry, h]

/-- A nonempty path is among its own ancestors. -/
theorem self_mem_ancestorsOf (p : List String) (h : p ≠ []) : p ∈ ancestorsOf p := by
  induction p with
  | nil => exact absurd rfl h
  | cons a rest ih =>
    cases rest with
    | nil => simp [ancestorsOf]
    | cons b rest2 =>
      have hb : (b :: rest2) ∈ ancestorsOf (b :: rest2) := ih (by simp)
      have hrw : ancestorsOf (a :: b :: rest2)
          = [a] :: (ancestorsOf (b :: rest2)).map (fun q => a :: q) := rfl
      rw [hrw]
      exact List.mem_cons_of_mem _ (List.mem_map_of_mem _ hb)

/-- After mkdirParents the requested directory is present. -/
theorem self_mem_mkdirParents (fs : FS) (p : List String) (h : p ≠ []) :
    p ∈ (fs.mkdirParents p).dirs := by
  by_cases hp : p ∈ fs.dirs
  · exact List.mem_append_left _ hp
  · refine List.mem_append_right _ ?_
    rw [List.mem_filter]
    exact ⟨self_mem_ancestorsOf p h, by simp [hp]⟩

/-- If mkdir does not fail, download_whisper_binary never propagates an
exception: the unsupported branch and the absent-artifact branch return
normally, and everything else is inside the try block. -/
theorem download_exn_of_mkdir_ok (system machine : String) (installLib repoRoot : List String)
    (faults : Faults) (fs : FS) (h : faults.mkdirFails = false) :
    (download_whisper_binary system machine installLib repoRoot faults fs).exn = none := by
  unfold download_whisper_binary
  cases hsel : selectBinary system with
  | none => rfl
  | some pair =>
    obtain ⟨bn, en⟩ := pair
    simp only [h, Bool.false_eq_true, if_false]
    exact catchTry_exn _ _

/-- Normal form of download_whisper_binary on a supported platform when
the local artifact is absent and mkdir succeeds: the bin directory is
created, two informational lines follow the download banner, no file
changes, no exception. -/
theorem download_absent (system machine : String) (installLib repoRoot : List String)
    (faults : Faults) (fs : FS) (bn en : String)
    (hsel : selectBinary system = some (bn, en))
    (hmk : faults.mkdirFails = false)
    (hsrc : lookupFile fs.files (repoRoot ++ ["dist", bn]) = none) :
    download_whisper_binary system machine installLib repoRoot faults fs
      = { fs := fs.mkdirParents (installLib ++ ["whisper_cli", "bin"]),
          printed := ["📦 Downloading Whisper CLI binary for " ++ system ++ "...",
                      "ℹ️  Local binary not found. You will need to build it first with:",
                      "   npm run build:standalone"],
          exn := none } := by
  unfold download_whisper_binary
  rw [hsel]
  simp only [hmk, Bool.false_eq_true, if_false, mkdirParents_files, hsrc]
  rfl

/-
Concrete fixtures used in counterexamples and witnesses.
-/

/-- The empty filesystem. -/
def emptyFS : FS := { dirs := [], files := [] }

/-- A repository checkout whose dist directory holds the built linux
artifact. -/
def distFS : FS :=
  { dirs := [["repo"], ["repo", "dist"]],
    files := [(["repo", "dist", "whisper-linux"], { content := [1, 2, 3], mode := 0o644 })] }

/-- A filesystem in which the file at the launcher-resolved path is
present. -/
def launcherFS : FS :=
  { dirs := [["sp"], ["sp", "whisper_cli"]],
    files := [(["sp", "whisper_cli", "whisper"], { content := [1, 2, 3], mode := 0o755 })] }

/-- A fault environment in which directory creation raises. -/
def mkdirFaults : Faults := { mkdirFails := true, copyFails := false, chmodFails := false }

/-
Claim theorems.
-/

/-- C1: the claim says the Launcher resolves the same
`<package-root>/bin/<executable-name>` path at which the Installer
placed the binary, so that the post-install existence check succeeds.
The code contradicts it: after a successful linux install the binary
sits at sp/whisper_cli/bin/whisper, but get_whisper_cli_path resolves
sp/whisper_cli/whisper — no "bin" component — so the launcher reports
the binary missing, exits 1, and spawns nothing, even though the
install just succeeded.  This is the code-bug evaluation at the
failing input. -/
theorem C1_launcher_path_misses_bin :
    (download_whisper_binary "linux" "x86_64" ["sp"] ["repo"] noFaults distFS).exn = none
    ∧ FS.fileExists (download_whisper_binary "linux" "x86_64" ["sp"] ["repo"] noFaults distFS).fs
        ["sp", "whisper_cli", "bin", "whisper"] = true
    ∧ get_whisper_cli_path ["sp", "whisper_cli"] false = ["sp", "whisper_cli", "whisper"]
    ∧ "bin" ∉ get_whisper_cli_path ["sp", "whisper_cli"] false
    ∧ (cli_main (download_whisper_binary "linux" "x86_64" ["sp"] ["repo"] noFaults distFS).fs
        ["sp", "whisper_cli"] false ["whisper", "scan"] 0).exitCode = 1
    ∧ (cli_main (download_whisper_binary "linux" "x86_64" ["sp"] ["repo"] noFaults distFS).fs
        ["sp", "whisper_cli"] false ["whisper", "scan"] 0).spawned = none := by
  decide

/-- C2 counterexample: with the binary present and a child that exits
with status 2, the launcher process exits with status 1 (the uncaught
CalledProcessError from check=True), not 2 — so the launcher exit
status does not equal the child exit status. -/
theorem C2_counterexample_exit_not_propagated :
    (cli_main launcherFS ["sp", "whisper_cli"] false ["whisper", "scan"] 2).exitCode = 1
    ∧ ¬ (cli_main launcherFS ["sp", "whisper_cli"] false ["whisper", "scan"] 2).exitCode = 2 := by
  decide

/-- C2 (amended): when the resolved binary exists, the launcher exits 0
exactly when the child exits 0, and exits 1 on every nonzero child
status — nonzero child failure is propagated as failure, but the
numeric status is collapsed to 1 rather than preserved. -/
theorem C2_amended_exit_status (fs : FS) (base_dir : List String) (isWindows : Bool)
    (argv : List String) (childExit : Nat)
    (h : fs.fileExists (get_whisper_cli_path base_dir isWindows) = true) :
    (cli_main fs base_dir isWindows argv childExit).exitCode
      = (if childExit = 0 then 0 else 1) := by
  simp [cli_main, h]

/-- C2 witness: the amended theorem applied at a concrete input. -/
theorem C2_amended_witness :
    (cli_main launcherFS ["sp", "whisper_cli"] false ["whisper"] 0).exitCode
      = (if 0 = 0 then 0 else 1) :=
  C2_amended_exit_status launcherFS ["sp", "whisper_cli"] false ["whisper"] 0 (by decide)

/-- C3 counterexample: install_dir.mkdir sits outside the try block, so
when directory creation raises on a supported platform the exception
propagates out of download_whisper_binary — not every failure in the
routine is caught. -/
theorem C3_counterexample_mkdir_raises :
    (download_whisper_binary "linux" "x86_64" ["sp"] ["repo"] mkdirFaults emptyFS).exn
      = some "mkdir failed" := by
  decide

/-- C3 (amended): every failure in the phase inside the try block (copy
and permission change) is caught and converted into printed
diagnostics, and the unsupported and absent-artifact branches return
normally; only a failure of the directory-creation step, which runs
before the try block, can propagate out of the routine. -/
theorem C3_amended_try_catches (system machine : String) (installLib repoRoot : List String)
    (faults : Faults) (fs : FS) (h : faults.mkdirFails = false) :
    (download_whisper_binary system machine installLib repoRoot faults fs).exn = none :=
  download_exn_of_mkdir_ok system machine installLib repoRoot faults fs h

/-- C3 witness: the amended theorem applied at a concrete input, with a
copy fault injected to exercise the except clause. -/
theorem C3_amended_witness :
    (download_whisper_binary "linux" "x86_64" ["sp"] ["repo"]
        { mkdirFails := false, copyFails := true, chmodFails := false } distFS).exn = none :=
  C3_amended_try_catches "linux" "x86_64" ["sp"] ["repo"]
    { mkdirFails := false, copyFails := true, chmodFails := false } distFS rfl

/-- C4: the if/elif chain maps windows to (whisper-win.exe, whisper.exe),
darwin to (whisper-macos, whisper) and linux to (whisper-linux, whisper)
exactly, and on any other identifier the installer leaves the
filesystem untouched, prints the warning and the fallback instruction,
and returns normally without raising. -/
theorem C4_platform_selection :
    selectBinary "windows" = some ("whisper-win.exe", "whisper.exe")
    ∧ selectBinary "darwin" = some ("whisper-macos", "whisper")
    ∧ selectBinary "linux" = some ("whisper-linux", "whisper")
    ∧ ∀ system : String, system ≠ "windows" → system ≠ "darwin" → system ≠ "linux" →
        ∀ (machine : String) (installLib repoRoot : List String) (faults : Faults) (fs : FS),
          (download_whisper_binary system machine installLib repoRoot faults fs).fs = fs
          ∧ (download_whisper_binary system machine installLib repoRoot faults fs).printed
              = ["⚠️  Unsupported platform: " ++ system,
                 "Please install Node.js and use: npm install -g whisper-ai"]
          ∧ (download_whisper_binary system machine installLib repoRoot faults fs).exn = none := by
  refine ⟨by decide, by decide, by decide, ?_⟩
  intro system h1 h2 h3 machine installLib repoRoot faults fs
  have hsel : selectBinary system = none := by simp [selectBinary, h1, h2, h3]
  unfold download_whisper_binary
  rw [hsel]
  exact ⟨rfl, rfl, rfl⟩

/-- C4 witness: the unsupported-platform conjunct applied to a concrete
unrecognised identifier. -/
theorem C4_witness :
    (download_whisper_binary "freebsd" "amd64" ["sp"] ["repo"] noFaults emptyFS).fs = emptyFS
    ∧ (download_whisper_binary "freebsd" "amd64" ["sp"] ["repo"] noFaults emptyFS).exn = none := by
  have h := C4_platform_selection.2.2.2 "freebsd" (by decide) (by decide) (by decide)
      "amd64" ["sp"] ["repo"] noFaults emptyFS
  exact ⟨h.1, h.2.2⟩

/-- C5: when the resolved binary path exists, the spawned child's
argument vector is exactly the binary path followed by the launcher's
received arguments after its own program name, in order, none dropped,
none added. -/
theorem C5_argv_forwarded (fs : FS) (base_dir : List String) (isWindows : Bool)
    (argv : List String) (childExit : Nat)
    (h : fs.fileExists (get_whisper_cli_path base_dir isWindows) = true) :
    (cli_main fs base_dir isWindows argv childExit).spawned
      = some (pathStr (get_whisper_cli_path base_dir isWindows) :: argv.drop 1) := by
  simp [cli_main, h]

/-- C5 witness: the theorem applied at a concrete argument vector. -/
theorem C5_witness :
    (cli_main launcherFS ["sp", "whisper_cli"] false ["whisper", "scan", "--all"] 0).spawned
      = some (pathStr (get_whisper_cli_path ["sp", "whisper_cli"] false)
          :: (["whisper", "scan", "--all"] : List String).drop 1) :=
  C5_argv_forwarded launcherFS ["sp", "whisper_cli"] false ["whisper", "scan", "--all"] 0 (by decide)

/-- C6: when the resolved binary path does not exist, the launcher
prints exactly one diagnostic line, exits with status 1, and spawns no
child process. -/
theorem C6_missing_binary (fs : FS) (base_dir : List String) (isWindows : Bool)
    (argv : List String) (childExit : Nat)
    (h : fs.fileExists (get_whisper_cli_path base_dir isWindows) = false) :
    (cli_main fs base_dir isWindows argv childExit).printed
      = ["Whisper CLI executable not found! Please ensure it is installed correctly."]
    ∧ (cli_main fs base_dir isWindows argv childExit).exitCode = 1
    ∧ (cli_main fs base_dir isWindows argv childExit).spawned = none := by
  simp [cli_main, h]

/-- C6 witness: the theorem applied on the empty filesystem. -/
theorem C6_witness :
    (cli_main emptyFS ["sp", "whisper_cli"] false ["whisper"] 0).printed
      = ["Whisper CLI executable not found! Please ensure it is installed correctly."]
    ∧ (cli_main emptyFS ["sp", "whisper_cli"] false ["whisper"] 0).exitCode = 1
    ∧ (cli_main emptyFS ["sp", "whisper_cli"] false ["whisper"] 0).spawned = none :=
  C6_missing_binary emptyFS ["sp", "whisper_cli"] false ["whisper"] 0 (by decide)

/-- C7: on a supported platform with the local artifact absent (and the
directory-creation primitive not faulting), the installer performs no
copy — the file table is unchanged — the call returns without raising,
and a target path that was absent before the call is still absent after
it. -/
theorem C7_absent_artifact (system machine : String) (installLib repoRoot : List String)
    (faults : Faults) (fs : FS) (bn en : String)
    (hsel : selectBinary system = some (bn, en))
    (hmk : faults.mkdirFails = false)
    (hsrc : lookupFile fs.files (repoRoot ++ ["dist", bn]) = none)
    (htgt : lookupFile fs.files (installLib ++ ["whisper_cli", "bin", en]) = none) :
    (download_whisper_binary system machine installLib repoRoot faults fs).fs.files = fs.files
    ∧ (download_whisper_binary system machine installLib repoRoot faults fs).exn = none
    ∧ (download_whisper_binary system machine installLib repoRoot faults fs).fs.fileExists
        (installLib ++ ["whisper_cli", "bin", en]) = false := by
  rw [download_absent system machine installLib repoRoot faults fs bn en hsel hmk hsrc]
  refine ⟨rfl, rfl, ?_⟩
  simp [FS.fileExists, htgt]

/-- C7 witness: the theorem applied on the empty filesystem for linux. -/
theorem C7_witness :
    (download_whisper_binary "linux" "x86_64" ["sp"] ["repo"] noFaults emptyFS).fs.files
        = emptyFS.files
    ∧ (download_whisper_binary "linux" "x86_64" ["sp"] ["repo"] noFaults emptyFS).exn = none
    ∧ (download_whisper_binary "linux" "x86_64" ["sp"] ["repo"] noFaults emptyFS).fs.fileExists
        (["sp"] ++ ["whisper_cli", "bin", "whisper"]) = false :=
  C7_absent_artifact "linux" "x86_64" ["sp"] ["repo"] noFaults emptyFS "whisper-linux" "whisper"
    rfl rfl rfl rfl

/-- C8: on a supported platform with the local artifact present (nominal
environment), after the call the target path holds a file whose content
is byte-identical to the source; shutil.copy2 preserves the mode, and
on non-windows systems os.chmod then sets the mode to 0o755; the call
returns without raising. -/
theorem C8_present_artifact_installed (system machine : String) (installLib repoRoot : List String)
    (fs : FS) (bn en : String) (src : FileData)
    (hsel : selectBinary system = some (bn, en))
    (hsrc : lookupFile fs.files (repoRoot ++ ["dist", bn]) = some src) :
    ∃ d : FileData,
      lookupFile (download_whisper_binary system machine installLib repoRoot noFaults fs).fs.files
          (installLib ++ ["whisper_cli", "bin", en]) = some d
      ∧ d.content = src.content
      ∧ (system = "windows" → d.mode = src.mode)
      ∧ (system ≠ "windows" → d.mode = 0o755)
      ∧ (download_whisper_binary system machine installLib repoRoot noFaults fs).exn = none := by
  have hexn : (download_whisper_binary system machine installLib repoRoot noFaults fs).exn = none :=
    download_exn_of_mkdir_ok system machine installLib repoRoot noFaults fs rfl
  by_cases hw : system = "windows"
  · refine ⟨src, ?_, rfl, fun _ => rfl, fun hne => absurd hw hne, hexn⟩
    unfold download_whisper_binary
    rw [hsel]
    simp [noFaults, hsrc, hw, catchTry, lookupFile_setFile_self]
  · refine ⟨{ src with mode := 0o755 }, ?_, rfl, fun hwe => absurd hwe hw, fun _ => rfl, hexn⟩
    unfold download_whisper_binary
    rw [hsel]
    have hset := lookupFile_setFile_self fs.files (installLib ++ ["whisper_cli", "bin", en]) src
    have hch := lookupFile_chmodFiles_self
      (setFile fs.files (installLib ++ ["whisper_cli", "bin", en]) src)
      (installLib ++ ["whisper_cli", "bin", en]) 0o755 src hset
    simp only [noFaults, Bool.false_eq_true, if_false, mkdirParents_files, hsrc]
    simp [hw, catchTry, hch]

/-- C8 witness: the theorem applied to the linux fixture with the built
artifact present. -/
theorem C8_witness :
    ∃ d : FileData,
      lookupFile (download_whisper_binary "linux" "x86_64" ["sp"] ["repo"] noFaults distFS).fs.files
          (["sp"] ++ ["whisper_cli", "bin", "whisper"]) = some d
      ∧ d.content = FileData.content { content := [1, 2, 3], mode := 0o644 }
      ∧ ("linux" = "windows" → d.mode = FileData.mode { content := [1, 2, 3], mode := 0o644 })
      ∧ ("linux" ≠ "windows" → d.mode = 0o755)
      ∧ (download_whisper_binary "linux" "x86_64" ["sp"] ["repo"] noFaults distFS).exn = none :=
  C8_present_artifact_installed "linux" "x86_64" ["sp"] ["repo"] distFS "whisper-linux" "whisper"
    { content := [1, 2, 3], mode := 0o644 } rfl rfl

/-- C9: on a supported platform the bin directory is created before the
artifact check, so even when the artifact is absent the directory
installLib/whisper_cli/bin is present afterwards; in the
unsupported-platform branch the filesystem is returned untouched. -/
theorem C9_mkdir_before_artifact_check :
    (∀ (system machine : String) (installLib repoRoot : List String) (faults : Faults)
        (fs : FS) (bn en : String),
        selectBinary system = some (bn, en) →
        faults.mkdirFails = false →
        lookupFile fs.files (repoRoot ++ ["dist", bn]) = none →
        (installLib ++ ["whisper_cli", "bin"])
          ∈ (download_whisper_binary system machine installLib repoRoot faults fs).fs.dirs)
    ∧ ∀ (system machine : String) (installLib repoRoot : List String) (faults : Faults) (fs : FS),
        selectBinary system = none →
        (download_whisper_binary system machine installLib repoRoot faults fs).fs = fs := by
  constructor
  · intro system machine installLib repoRoot faults fs bn en hsel hmk hsrc
    rw [download_absent system machine installLib repoRoot faults fs bn en hsel hmk hsrc]
    exact self_mem_mkdirParents fs _ (by simp)
  · intro system machine installLib repoRoot faults fs hsel
    unfold download_whisper_binary
    rw [hsel]

/-- C9 witness: the created-directory conjunct on the empty filesystem. -/
theorem C9_witness :
    (["sp"] ++ ["whisper_cli", "bin"] : List String)
      ∈ (download_whisper_binary "linux" "x86_64" ["sp"] ["repo"] noFaults emptyFS).fs.dirs :=
  C9_mkdir_before_artifact_check.1 "linux" "x86_64" ["sp"] ["repo"] noFaults emptyFS
    "whisper-linux" "whisper" rfl rfl rfl

/-- C10: download_whisper_binary never inspects the machine
architecture: two runs differing only in the machine value produce
identical outcomes — same filesystem, same printed lines, same
exception behaviour — because the machine argument is computed by the
source but never used. -/
theorem C10_machine_independent (system m1 m2 : String) (installLib repoRoot : List String)
    (faults : Faults) (fs : FS) :
    download_whisper_binary system m1 installLib repoRoot faults fs
      = download_whisper_binary system m2 installLib repoRoot faults fs := rfl
